import Mathlib

/-!
Shallow embedding of the data model of `src/app/models.py` (an AI-CMS /
website-builder SaaS core) and of the boundary operations its specification
describes, together with proofs of the specified properties.

The source file is purely declarative (SQLModel/pydantic schema classes);
entity records and Create/Update/Response schemas are translated
field-by-field from the class declarations.  Operations that the spec
assigns to this core but that are not present in the source (forest
derivation, retrieval ordering, update application, storage-level
uniqueness/referential checks, cycle prevention) are modelled from the
spec's words and carry a doc comment saying so.

Conventions of the embedding:
  * Python `int` primary/foreign keys become `Nat`; `position` (a Python
    `int`) becomes `Int`.
  * `datetime` timestamps become an abstract `Nat` tick.
  * `Optional[T]` becomes `Option T`.
  * JSON-blob columns (`Dict[str, Any]`) are opaque to this core
    ("schema does not constrain their internal shape", spec section 6), so they
    are modelled as an uninterpreted value type `JsonVal` that the core only
    stores and returns verbatim.
-/

namespace CMS

/-- JSON-blob payload (`Dict[str, Any]` columns).  The spec declares these
values opaque to this core: they are stored and returned verbatim and never
inspected, so any value type with decidable equality is a faithful model. -/
structure JsonVal where
  raw : String
deriving DecidableEq, Repr

/-- The `PageStatus` enum of `models.py`. -/
inductive PageStatus where
  | draft
  | published
  | archived
deriving DecidableEq, Repr

/-- The `WebsiteStatus` enum of `models.py`. -/
inductive WebsiteStatus where
  | active
  | inactive
  | building
deriving DecidableEq, Repr

/-- The `FeatureType` enum of `models.py`. -/
inductive FeatureType where
  | core
  | ai_builder
  | cms
  | advanced
deriving DecidableEq, Repr

/-- The `ContentType` enum of `models.py`. -/
inductive ContentType where
  | text
  | image
  | video
  | hero
  | feature
  | cta
  | navigation
  | footer
deriving DecidableEq, Repr

/-- Persistent `User` row (`models.py` class `User`).  Stored rows have a
concrete primary key, so `id` is a plain `Nat` here. -/
structure User where
  id : Nat
  email : String
  username : String
  full_name : String
  is_active : Bool
  is_premium : Bool
  created_at : Nat
  updated_at : Nat
deriving DecidableEq, Repr

/-- Persistent `Website` row (`models.py` class `Website`). -/
structure Website where
  id : Nat
  name : String
  domain : Option String
  description : Option String
  status : WebsiteStatus
  theme : String
  custom_css : Option String
  seo_settings : JsonVal
  analytics_config : JsonVal
  owner_id : Nat
  created_at : Nat
  updated_at : Nat
  published_at : Option Nat
deriving DecidableEq, Repr

/-- Persistent `Page` row (`models.py` class `Page`). -/
structure Page where
  id : Nat
  title : String
  slug : String
  meta_description : Option String
  content : JsonVal
  status : PageStatus
  is_homepage : Bool
  template : String
  custom_css : Option String
  website_id : Nat
  created_at : Nat
  updated_at : Nat
  published_at : Option Nat
deriving DecidableEq, Repr

/-- Persistent `ContentBlock` row (`models.py` class `ContentBlock`). -/
structure ContentBlock where
  id : Nat
  type : ContentType
  title : Option String
  content : JsonVal
  position : Int
  is_visible : Bool
  styling : JsonVal
  page_id : Nat
  created_at : Nat
  updated_at : Nat
deriving DecidableEq, Repr

/-- Persistent `Feature` row (`models.py` class `Feature`). -/
structure Feature where
  id : Nat
  name : String
  title : String
  description : String
  type : FeatureType
  icon : Option String
  is_active : Bool
  sort_order : Int
  feature_metadata : JsonVal
  created_at : Nat
  updated_at : Nat
deriving DecidableEq, Repr

/-- Persistent `NavigationItem` row (`models.py` class `NavigationItem`);
`parent_id` is the self-referential foreign key (`None` means root). -/
structure NavigationItem where
  id : Nat
  label : String
  url : String
  position : Int
  is_external : Bool
  is_active : Bool
  parent_id : Option Nat
  website_id : Nat
  created_at : Nat
  updated_at : Nat
deriving DecidableEq, Repr

/-- The `UserCreate` transfer schema (`models.py`). -/
structure UserCreate where
  email : String
  username : String
  full_name : String
deriving DecidableEq, Repr

/-- The `UserUpdate` transfer schema (`models.py`): it declares exactly the
fields `full_name` and `is_premium`, both defaulting to `None`. -/
structure UserUpdate where
  full_name : Option String
  is_premium : Option Bool
deriving DecidableEq, Repr

/-- The `WebsiteCreate` transfer schema (`models.py`). -/
structure WebsiteCreate where
  name : String
  description : Option String
  domain : Option String
  theme : String
deriving DecidableEq, Repr

/-- The `WebsiteUpdate` transfer schema (`models.py`). -/
structure WebsiteUpdate where
  name : Option String
  description : Option String
  domain : Option String
  status : Option WebsiteStatus
  theme : Option String
  custom_css : Option String
  seo_settings : Option JsonVal
deriving DecidableEq, Repr

/-- The `PageUpdate` transfer schema (`models.py`): every declared field
defaults to `None`. -/
structure PageUpdate where
  title : Option String
  slug : Option String
  meta_description : Option String
  content : Option JsonVal
  status : Option PageStatus
  template : Option String
  custom_css : Option String
deriving DecidableEq, Repr

/-- The `ContentBlockUpdate` transfer schema (`models.py`). -/
structure ContentBlockUpdate where
  title : Option String
  content : Option JsonVal
  position : Option Int
  is_visible : Option Bool
  styling : Option JsonVal
deriving DecidableEq, Repr

/-- The `NavigationItemUpdate` transfer schema (`models.py`). -/
structure NavigationItemUpdate where
  label : Option String
  url : Option String
  position : Option Int
  is_external : Option Bool
  is_active : Option Bool
  parent_id : Option Nat
deriving DecidableEq, Repr

/-- The `FeatureResponse` transfer schema (`models.py`): the read-only
projection of a `Feature`, declaring exactly the fields `id`, `name`,
`title`, `description`, `type`, `icon`, `feature_metadata`. -/
structure FeatureResponse where
  id : Nat
  name : String
  title : String
  description : String
  type : FeatureType
  icon : Option String
  feature_metadata : JsonVal
deriving DecidableEq, Repr

/-- Modelled from the spec: the entity → Response projection ("the Response
schema exposes a read-only projection") for `Feature`; the projection
function itself is not in the source, only the two schemas are.  It copies
exactly the fields `FeatureResponse` declares. -/
def featureToResponse (f : Feature) : FeatureResponse :=
  { id := f.id
    name := f.name
    title := f.title
    description := f.description
    type := f.type
    icon := f.icon
    feature_metadata := f.feature_metadata }

/-- Modelled from the spec: entity → Update-schema application for `Page`
("only non-null/provided fields overwrite existing entity fields;
`updated_at` refreshed"); the apply step is not in the source, only the
`PageUpdate` schema is.  Fields of `Page` that `PageUpdate` does not
declare are untouched. -/
def applyPageUpdate (p : Page) (u : PageUpdate) (now : Nat) : Page :=
  { p with
    title := u.title.getD p.title
    slug := u.slug.getD p.slug
    meta_description :=
      match u.meta_description with
      | some v => some v
      | none => p.meta_description
    content := u.content.getD p.content
    status := u.status.getD p.status
    template := u.template.getD p.template
    custom_css :=
      match u.custom_css with
      | some v => some v
      | none => p.custom_css
    updated_at := now }

/-- Modelled from the spec: entity → Update-schema application for `User`;
the apply step is not in the source, only the `UserUpdate` schema is.
`UserUpdate` declares only `full_name` and `is_premium`, so only those
fields (and `updated_at`) can change. -/
def applyUserUpdate (u : User) (patch : UserUpdate) (now : Nat) : User :=
  { u with
    full_name := patch.full_name.getD u.full_name
    is_premium := patch.is_premium.getD u.is_premium
    updated_at := now }

/-!
Field tables.  Each list transcribes, in declaration order, the column/field
names of one class of `models.py`, paired with whether the declaration gives
the field a default (so that it may be omitted / is optional at that
boundary).  For Update schemas every field is declared
`Optional[...] = Field(default=None, ...)`.
-/

/-- Fields of the persistent `User` class, with optionality
(`id`, timestamps and the two flags have defaults; `email`, `username`,
`full_name` are required). -/
def userFields : List (String × Bool) :=
  [("id", true), ("email", false), ("username", false), ("full_name", false),
   ("is_active", true), ("is_premium", true),
   ("created_at", true), ("updated_at", true)]

/-- Fields of the persistent `Website` class, with optionality. -/
def websiteFields : List (String × Bool) :=
  [("id", true), ("name", false), ("domain", true), ("description", true),
   ("status", true), ("theme", true), ("custom_css", true),
   ("seo_settings", true), ("analytics_config", true), ("owner_id", false),
   ("created_at", true), ("updated_at", true), ("published_at", true)]

/-- Fields of the persistent `Page` class, with optionality. -/
def pageFields : List (String × Bool) :=
  [("id", true), ("title", false), ("slug", false),
   ("meta_description", true), ("content", true), ("status", true),
   ("is_homepage", true), ("template", true), ("custom_css", true),
   ("website_id", false),
   ("created_at", true), ("updated_at", true), ("published_at", true)]

/-- Fields of the persistent `ContentBlock` class, with optionality. -/
def contentBlockFields : List (String × Bool) :=
  [("id", true), ("type", false), ("title", true), ("content", true),
   ("position", true), ("is_visible", true), ("styling", true),
   ("page_id", false), ("created_at", true), ("updated_at", true)]

/-- Fields of the persistent `NavigationItem` class, with optionality. -/
def navigationItemFields : List (String × Bool) :=
  [("id", true), ("label", false), ("url", false), ("position", true),
   ("is_external", true), ("is_active", true), ("parent_id", true),
   ("website_id", false), ("created_at", true), ("updated_at", true)]

/-- Fields of the persistent `Feature` class, with optionality. -/
def featureFields : List (String × Bool) :=
  [("id", true), ("name", false), ("title", false), ("description", false),
   ("type", false), ("icon", true), ("is_active", true), ("sort_order", true),
   ("feature_metadata", true), ("created_at", true), ("updated_at", true)]

/-- Fields of the `UserUpdate` schema, with optionality. -/
def userUpdateFields : List (String × Bool) :=
  [("full_name", true), ("is_premium", true)]

/-- Fields of the `WebsiteUpdate` schema, with optionality. -/
def websiteUpdateFields : List (String × Bool) :=
  [("name", true), ("description", true), ("domain", true), ("status", true),
   ("theme", true), ("custom_css", true), ("seo_settings", true)]

/-- Fields of the `PageUpdate` schema, with optionality. -/
def pageUpdateFields : List (String × Bool) :=
  [("title", true), ("slug", true), ("meta_description", true),
   ("content", true), ("status", true), ("template", true),
   ("custom_css", true)]

/-- Fields of the `ContentBlockUpdate` schema, with optionality. -/
def contentBlockUpdateFields : List (String × Bool) :=
  [("title", true), ("content", true), ("position", true),
   ("is_visible", true), ("styling", true)]

/-- Fields of the `NavigationItemUpdate` schema, with optionality. -/
def navigationItemUpdateFields : List (String × Bool) :=
  [("label", true), ("url", true), ("position", true), ("is_external", true),
   ("is_active", true), ("parent_id", true)]

/-- Fields of the `FeatureResponse` schema, with optionality (all are
plainly declared, none has a default). -/
def featureResponseFields : List (String × Bool) :=
  [("id", false), ("name", false), ("title", false), ("description", false),
   ("type", false), ("icon", false), ("feature_metadata", false)]

/-- Names of a field table. -/
def fieldNames (fs : List (String × Bool)) : List String :=
  fs.map Prod.fst

/-!
Email validation.  `User.email` and `UserCreate.email` both declare
`regex = ^[a-zA-Z0-9_.+-]+@[a-zA-Z0-9-]+\.[a-zA-Z0-9-.]+$`.
The three bracket classes are embedded as character predicates and the
anchored pattern `A+ @ B+ . C+` as a recognizer: since `@` occurs in none of
the classes, a matching string splits uniquely at its single `@`; since the
middle class excludes `.`, the `B+` part is exactly the segment before the
first `.` after the `@`.  The recognizer accepts exactly the language of the
regex.
-/

/-- Character class `[a-zA-Z0-9_.+-]` (local part). -/
def isLocalChar (c : Char) : Bool :=
  c.isAlpha || c.isDigit || c = '_' || c = '.' || c = '+' || c = '-'

/-- Character class `[a-zA-Z0-9-]` (domain label before the first dot). -/
def isDomainChar (c : Char) : Bool :=
  c.isAlpha || c.isDigit || c = '-'

/-- Character class `[a-zA-Z0-9-.]` (tail after the first dot). -/
def isTailChar (c : Char) : Bool :=
  c.isAlpha || c.isDigit || c = '-' || c = '.'

/-- Matches `[a-zA-Z0-9-]+\.[a-zA-Z0-9-.]+` against the part after `@`. -/
def domainMatches (cs : List Char) : Bool :=
  match cs.span (fun c => !(c = '.')) with
  | (b, '.' :: c) => !b.isEmpty && b.all isDomainChar && !c.isEmpty && c.all isTailChar
  | _ => false

/-- Matches the full anchored regex
`^[a-zA-Z0-9_.+-]+@[a-zA-Z0-9-]+\.[a-zA-Z0-9-.]+$` declared on
`User.email` / `UserCreate.email`. -/
def emailMatches (s : String) : Bool :=
  match s.toList.span (fun c => !(c = '@')) with
  | (l, '@' :: rest) => !l.isEmpty && l.all isLocalChar && domainMatches rest
  | _ => false

/-- Modelled from the spec: schema-level validation of `UserCreate`
("construction from a Create schema must reject out-of-range string lengths
and malformed email/regex fields"); the pydantic enforcement machinery is
not in the source, only the declared constraints are (`email`: regex and
`max_length=255`; `username`: `max_length=50`; `full_name`:
`max_length=100`). -/
def userCreateValid (c : UserCreate) : Bool :=
  emailMatches c.email && c.email.length ≤ 255 &&
    c.username.length ≤ 50 && c.full_name.length ≤ 100

/-- Modelled from the spec: validated construction of a `UserCreate` schema
value; returns `none` exactly when validation fails (a pydantic
ValidationError). -/
def mkUserCreate (email username full_name : String) : Option UserCreate :=
  let c : UserCreate :=
    { email := email, username := username, full_name := full_name }
  if userCreateValid c then some c else none

/-!
Content-block retrieval.  The spec fixes the retrieval order of a Page's
ContentBlocks: ascending by the pair `(position, id)`.
-/

/-- The retrieval order on content blocks: ascending `position`, ties broken
by ascending `id` (spec: "retrieval must always sort by `(position, id)` for
determinism"). -/
def blockLe (a b : ContentBlock) : Prop :=
  a.position < b.position ∨ (a.position = b.position ∧ a.id ≤ b.id)

instance : DecidableRel blockLe := fun a b =>
  inferInstanceAs (Decidable (a.position < b.position ∨
    (a.position = b.position ∧ a.id ≤ b.id)))

instance : IsTotal ContentBlock blockLe :=
  ⟨by intro a b; unfold blockLe; omega⟩

instance : IsTrans ContentBlock blockLe :=
  ⟨by intro a b c hab hbc; unfold blockLe at *; omega⟩

/-- Modelled from the spec: retrieval of a Page's ContentBlocks ("retrieval
must always sort by `(position, id)`"); no retrieval code is in the source,
only the `ContentBlock` schema is.  Selects the blocks whose `page_id`
foreign key names the page and sorts them by `blockLe`. -/
def retrieveBlocks (pid : Nat) (blocks : List ContentBlock) : List ContentBlock :=
  List.insertionSort blockLe (blocks.filter (fun b => b.page_id == pid))

/-!
Storage-level operations.  The spec (sections 5-7) assigns enforcement of
uniqueness and referential integrity to the storage layer and schema
validation to construction; none of that code is in the source, so the
operations below are modelled from the spec.  Every operation returns the
(possibly unchanged) store together with an optional error.
-/

/-- The recoverable failure kinds of spec section 7. -/
inductive CoreError where
  | validationError
  | uniqueConstraintViolation
  | referentialIntegrityError
deriving DecidableEq, Repr

/-- The `NavigationItemCreate` transfer schema (`models.py`). -/
structure NavigationItemCreate where
  label : String
  url : String
  position : Int
  is_external : Bool
  parent_id : Option Nat
deriving DecidableEq, Repr

/-- The stored state: one table per entity the claims exercise, plus the
server-assigned id counter. -/
structure Store where
  users : List User
  websites : List Website
  navItems : List NavigationItem
  nextId : Nat
deriving DecidableEq, Repr

/-- The empty JSON blob, the `default={}` of the JSON columns. -/
def JsonVal.empty : JsonVal := { raw := "" }

/-- Modelled from the spec: schema-level validation of `WebsiteCreate`
(declared lengths: `name ≤ 100`, `description ≤ 500`, `domain ≤ 255`,
`theme ≤ 50`). -/
def websiteCreateValid (c : WebsiteCreate) : Bool :=
  c.name.length ≤ 100 &&
    (match c.description with | some d => d.length ≤ 500 | none => true) &&
    (match c.domain with | some d => d.length ≤ 255 | none => true) &&
    c.theme.length ≤ 50

/-- Modelled from the spec: schema-level validation of
`NavigationItemCreate` (declared lengths: `label ≤ 100`, `url ≤ 500`). -/
def navigationItemCreateValid (c : NavigationItemCreate) : Bool :=
  c.label.length ≤ 100 && c.url.length ≤ 500

/-- Modelled from the spec: the create-User operation.  Validation first
(ValidationError), then the storage layer's uniqueness check on the
`unique=True` columns `email` and `username`
(UniqueConstraintViolation); on success the server fills `id`, the
defaults (`is_active=True`, `is_premium=False`) and both timestamps.
A failed operation returns the store unchanged. -/
def createUser (s : Store) (c : UserCreate) (now : Nat) : Store × Option CoreError :=
  if !userCreateValid c then (s, some CoreError.validationError)
  else if s.users.any (fun u => u.email == c.email || u.username == c.username) then
    (s, some CoreError.uniqueConstraintViolation)
  else
    ({ s with
        users := s.users ++ [{
          id := s.nextId
          email := c.email
          username := c.username
          full_name := c.full_name
          is_active := true
          is_premium := false
          created_at := now
          updated_at := now }]
        nextId := s.nextId + 1 }, none)

/-- Modelled from the spec: the create-Website operation.  Validation,
then the `owner_id` foreign key (ReferentialIntegrityError), then the
storage uniqueness of the `unique=True` column `domain` when present
(UniqueConstraintViolation); on success the server fills `id`, the declared
defaults (`status=building`, empty JSON blobs) and timestamps.  A failed
operation returns the store unchanged. -/
def createWebsite (s : Store) (c : WebsiteCreate) (owner_id : Nat) (now : Nat) :
    Store × Option CoreError :=
  if !websiteCreateValid c then (s, some CoreError.validationError)
  else if !s.users.any (fun u => u.id == owner_id) then
    (s, some CoreError.referentialIntegrityError)
  else if (match c.domain with
           | some d => s.websites.any (fun w => w.domain == some d)
           | none => false) then
    (s, some CoreError.uniqueConstraintViolation)
  else
    ({ s with
        websites := s.websites ++ [{
          id := s.nextId
          name := c.name
          domain := c.domain
          description := c.description
          status := WebsiteStatus.building
          theme := c.theme
          custom_css := none
          seo_settings := JsonVal.empty
          analytics_config := JsonVal.empty
          owner_id := owner_id
          created_at := now
          updated_at := now
          published_at := none }]
        nextId := s.nextId + 1 }, none)

/-- Modelled from the spec: the create-NavigationItem operation.
Validation, then the `website_id` and `parent_id` foreign keys
(ReferentialIntegrityError); on success the server fills `id`, the default
`is_active=True` and timestamps.  A failed operation returns the store
unchanged. -/
def createNavigationItem (s : Store) (c : NavigationItemCreate)
    (website_id : Nat) (now : Nat) : Store × Option CoreError :=
  if !navigationItemCreateValid c then (s, some CoreError.validationError)
  else if !s.websites.any (fun w => w.id == website_id) then
    (s, some CoreError.referentialIntegrityError)
  else if (match c.parent_id with
           | some pid => !s.navItems.any (fun i => i.id == pid)
           | none => false) then
    (s, some CoreError.referentialIntegrityError)
  else
    ({ s with
        navItems := s.navItems ++ [{
          id := s.nextId
          label := c.label
          url := c.url
          position := c.position
          is_external := c.is_external
          is_active := true
          parent_id := c.parent_id
          website_id := website_id
          created_at := now
          updated_at := now }]
        nextId := s.nextId + 1 }, none)

/-!
The navigation hierarchy.  `parent_id` edges of a Website's NavigationItems
form a forest; the parent chain of an item is followed through the flat
list.
-/

/-- The parent edge relation of a flat NavigationItem list: the `parent_id`
of the first stored item carrying the given id (`none` for roots and for
absent ids). -/
def parentMap (s : List NavigationItem) (x : Nat) : Option Nat :=
  match s.find? (fun i => i.id == x) with
  | some i => i.parent_id
  | none => none

/-- Strict ancestry, `Reaches p a b`: following `parent_id` edges from `a` hits `b` after at
least one step (`b` is a strict ancestor of `a`). -/
inductive Reaches (p : Nat → Option Nat) : Nat → Nat → Prop where
  | base {a b : Nat} : p a = some b → Reaches p a b
  | step {a c b : Nat} : p a = some c → Reaches p c b → Reaches p a b

/-- Descendant check: `d` is a descendant of `n` when `n` lies on `d`'s parent chain, a node
counting as its own descendant (the reflexive case of the DFS ancestor
check of spec section 9). -/
def Descendant (p : Nat → Option Nat) (d n : Nat) : Prop :=
  d = n ∨ Reaches p d n

/-- No `parent_id` cycle: no node is its own strict ancestor. -/
def Acyclic (p : Nat → Option Nat) : Prop :=
  ∀ a, ¬ Reaches p a a

/-- Fuel-bounded walk up the parent chain from `d`, reporting whether `n`
is hit within `fuel` steps. -/
def chainHits (p : Nat → Option Nat) : Nat → Nat → Nat → Bool
  | 0, _, _ => false
  | fuel + 1, d, n =>
    match p d with
    | some c => c == n || chainHits p fuel c n
    | none => false

/-- Modelled from the spec: the executable DFS ancestor check of spec
section 9 ("cycle-detection become explicit graph algorithms (DFS ancestor
check)").  `s.length` steps of fuel suffice because an acyclic parent chain
never revisits a stored id. -/
def descendantB (s : List NavigationItem) (d n : Nat) : Bool :=
  d == n || chainHits (parentMap s) s.length d n

/-- Rewrites the `parent_id` column of the item(s) carrying id `n`. -/
def setParent (s : List NavigationItem) (n : Nat) (q : Option Nat) :
    List NavigationItem :=
  s.map (fun i => if i.id == n then { i with parent_id := q } else i)

/-- Modelled from the spec: the guarded `parent_id` mutation ("reassigning
a node's parent to one of its own descendants must be rejected"); the
mutation endpoint is not in the source, only the `NavigationItemUpdate`
schema carrying `parent_id` is.  Returns `none` (rejection) when the new
parent is a descendant of the node, the updated list otherwise. -/
def reassignParent (s : List NavigationItem) (n : Nat) (q : Option Nat) :
    Option (List NavigationItem) :=
  match q with
  | none => some (setParent s n none)
  | some d => if descendantB s d n then none else some (setParent s n (some d))

/-- The navigation states reachable from `s0` by accepted `parent_id`
reassignments. -/
inductive NavReachable (s0 : List NavigationItem) : List NavigationItem → Prop where
  | refl : NavReachable s0 s0
  | step {s s' : List NavigationItem} {n : Nat} {q : Option Nat} :
      NavReachable s0 s → reassignParent s n q = some s' → NavReachable s0 s'

/-!
The derived navigation forest (spec section 4.2): group children under
their parent (null parent means root), ordered by `position` within each
sibling group.
-/

/-- Sibling order: ascending `position`. -/
def posLe (a b : NavigationItem) : Prop :=
  a.position ≤ b.position

instance : DecidableRel posLe := fun a b =>
  inferInstanceAs (Decidable (a.position ≤ b.position))

instance : IsTotal NavigationItem posLe :=
  ⟨by intro a b; unfold posLe; omega⟩

instance : IsTrans NavigationItem posLe :=
  ⟨by intro a b c hab hbc; unfold posLe at *; omega⟩

/-- A rose tree of navigation items. -/
inductive NavTree where
  | node : NavigationItem → List NavTree → NavTree
deriving Repr

/-- The item at the root of a tree. -/
def NavTree.item : NavTree → NavigationItem
  | NavTree.node i _ => i

/-- The children of the root of a tree. -/
def NavTree.children : NavTree → List NavTree
  | NavTree.node _ cs => cs

/-- Modelled from the spec: the items whose `parent_id` names `pid`,
ordered by `position` (the sibling group of `pid`). -/
def childrenOf (s : List NavigationItem) (pid : Nat) : List NavigationItem :=
  List.insertionSort posLe (s.filter (fun i => i.parent_id == some pid))

/-- Modelled from the spec: the subtree rooted at item `i`, built by
recursively grouping children under their parent.  The fuel argument bounds
the depth; `s.length` suffices for a forest-shaped list. -/
def buildTree : Nat → List NavigationItem → NavigationItem → NavTree
  | 0, _, i => NavTree.node i []
  | fuel + 1, s, i =>
    NavTree.node i ((childrenOf s i.id).map (buildTree fuel s))

/-- Modelled from the spec: the derived navigation forest of a flat
NavigationItem list ("produce the forest by grouping children under their
parent (null parent means root), ordered by `position` within each sibling
group"). -/
def buildForest (s : List NavigationItem) : List NavTree :=
  (List.insertionSort posLe (s.filter (fun i => i.parent_id == none))).map
    (buildTree s.length s)

/-- Structural soundness of a derived tree: every child's `parent_id` names
its parent node, and every sibling group is ordered by `position`. -/
inductive WF : NavTree → Prop where
  | mk {i : NavigationItem} {cs : List NavTree} :
      List.Sorted posLe (cs.map NavTree.item) →
      (∀ c ∈ cs, (NavTree.item c).parent_id = some i.id) →
      (∀ c ∈ cs, WF c) →
      WF (NavTree.node i cs)

/-!
Concrete fixtures used by the spec's worked examples.
-/

/-- Example navigation item 1 of the spec's worked example
(`{id:1, parent_id:null}`). -/
def ex1 : NavigationItem :=
  { id := 1, label := "Home", url := "/", position := 1, is_external := false
    is_active := true, parent_id := none, website_id := 1
    created_at := 0, updated_at := 0 }

/-- Example navigation item 2 (`{id:2, parent_id:1}`). -/
def ex2 : NavigationItem :=
  { id := 2, label := "Docs", url := "/docs", position := 2
    is_external := false, is_active := true, parent_id := some 1
    website_id := 1, created_at := 0, updated_at := 0 }

/-- Example navigation item 3 (`{id:3, parent_id:2}`). -/
def ex3 : NavigationItem :=
  { id := 3, label := "API", url := "/docs/api", position := 3
    is_external := false, is_active := true, parent_id := some 2
    website_id := 1, created_at := 0, updated_at := 0 }

/-- The spec's worked navigation example: the chain 1 → 2 → 3. -/
def exNav : List NavigationItem := [ex1, ex2, ex3]

/-- A content block at a given position under page 1, for the spec's
`[3,1,2]` retrieval example. -/
def exBlock (i : Nat) (pos : Int) : ContentBlock :=
  { id := i, type := ContentType.text, title := none
    content := JsonVal.empty, position := pos, is_visible := true
    styling := JsonVal.empty, page_id := 1, created_at := 0, updated_at := 0 }

/-- The spec's worked retrieval example: blocks stored with positions
`[3, 1, 2]` under one page. -/
def exBlocks : List ContentBlock := [exBlock 10 3, exBlock 11 1, exBlock 12 2]

/-- An existing stored user, for the uniqueness examples. -/
def exUser : User :=
  { id := 1, email := "alice@example.com", username := "alice"
    full_name := "Alice", is_active := true, is_premium := false
    created_at := 0, updated_at := 0 }

/-- A store already holding `exUser`. -/
def exStore : Store :=
  { users := [exUser], websites := [], navItems := [], nextId := 2 }

/-!
Theorems.
-/

/-- C4: applying a `PageUpdate` overwrites exactly the provided (non-null)
fields and refreshes `updated_at`; every other field of the `Page` — including
all fields `PageUpdate` does not declare — is unchanged.  In particular an
update providing only `title = "New"` leaves `slug`, `content`, `status`
unchanged and sets `updated_at`. -/
theorem pageUpdate_applies_only_provided_fields :
    ∀ (p : Page) (u : PageUpdate) (now : Nat),
      (applyPageUpdate p u now).title = u.title.getD p.title ∧
      (applyPageUpdate p u now).slug = u.slug.getD p.slug ∧
      (applyPageUpdate p u now).meta_description =
        (match u.meta_description with
         | some v => some v
         | none => p.meta_description) ∧
      (applyPageUpdate p u now).content = u.content.getD p.content ∧
      (applyPageUpdate p u now).status = u.status.getD p.status ∧
      (applyPageUpdate p u now).template = u.template.getD p.template ∧
      (applyPageUpdate p u now).custom_css =
        (match u.custom_css with
         | some v => some v
         | none => p.custom_css) ∧
      (applyPageUpdate p u now).updated_at = now ∧
      (applyPageUpdate p u now).id = p.id ∧
      (applyPageUpdate p u now).is_homepage = p.is_homepage ∧
      (applyPageUpdate p u now).website_id = p.website_id ∧
      (applyPageUpdate p u now).created_at = p.created_at ∧
      (applyPageUpdate p u now).published_at = p.published_at ∧
      applyPageUpdate p
          { title := some "New", slug := none, meta_description := none
            content := none, status := none, template := none
            custom_css := none } now =
        { p with title := "New", updated_at := now } :=
  fun _ _ _ =>
    ⟨rfl, rfl, rfl, rfl, rfl, rfl, rfl, rfl, rfl, rfl, rfl, rfl, rfl, rfl⟩

/-- C10: applying a `UserUpdate` can change only `full_name` and
`is_premium` (besides `updated_at`); `email`, `username` and `is_active`
are unchanged by every update, since `UserUpdate` carries no such fields. -/
theorem userUpdate_frame :
    ∀ (u : User) (patch : UserUpdate) (now : Nat),
      (applyUserUpdate u patch now).email = u.email ∧
      (applyUserUpdate u patch now).username = u.username ∧
      (applyUserUpdate u patch now).is_active = u.is_active ∧
      (applyUserUpdate u patch now).id = u.id ∧
      (applyUserUpdate u patch now).created_at = u.created_at ∧
      (applyUserUpdate u patch now).full_name = patch.full_name.getD u.full_name ∧
      (applyUserUpdate u patch now).is_premium = patch.is_premium.getD u.is_premium ∧
      (applyUserUpdate u patch now).updated_at = now :=
  fun _ _ _ => ⟨rfl, rfl, rfl, rfl, rfl, rfl, rfl, rfl⟩

/-- C5 counterexample: the Update schemas do not make every field of their
entity optional — they omit entity fields outright.  `User` declares the
field `email` but `UserUpdate` has no `email` field at all, and `Page`
declares `is_homepage` but `PageUpdate` has no such field. -/
theorem updateSchema_misses_entity_fields :
    ("email" ∈ fieldNames userFields ∧
      "email" ∉ fieldNames userUpdateFields) ∧
    ("is_homepage" ∈ fieldNames pageFields ∧
      "is_homepage" ∉ fieldNames pageUpdateFields) := by
  decide

/-- C5 (amended): every field each Update schema does declare is optional
(defaults to None, so a partial update can omit it), and the declared
fields form a subset of the entity's fields; but the Update schemas cover
only a subset of the entity fields. -/
theorem updateSchema_declared_fields_optional :
    (∀ fb ∈ userUpdateFields, fb.2 = true) ∧
    (∀ fb ∈ websiteUpdateFields, fb.2 = true) ∧
    (∀ fb ∈ pageUpdateFields, fb.2 = true) ∧
    (∀ fb ∈ contentBlockUpdateFields, fb.2 = true) ∧
    (∀ fb ∈ navigationItemUpdateFields, fb.2 = true) ∧
    fieldNames userUpdateFields ⊆ fieldNames userFields ∧
    fieldNames websiteUpdateFields ⊆ fieldNames websiteFields ∧
    fieldNames pageUpdateFields ⊆ fieldNames pageFields ∧
    fieldNames contentBlockUpdateFields ⊆ fieldNames contentBlockFields ∧
    fieldNames navigationItemUpdateFields ⊆ fieldNames navigationItemFields := by
  decide

/-- C5 witness: the amended statement applied to the concrete field
`full_name` of `UserUpdate`. -/
theorem updateSchema_declared_fields_optional_witness :
    (("full_name", true) : String × Bool).2 = true :=
  updateSchema_declared_fields_optional.1 ("full_name", true) (by decide)

/-- C8: `FeatureResponse` is a read-only projection of `Feature` exposing
exactly `id`, `name`, `title`, `description`, `type`, `icon` and
`feature_metadata`; it has no `is_active` or `sort_order` field, and the
projection is insensitive to those two internal fields. -/
theorem featureResponse_projection :
    (∀ f : Feature,
      (featureToResponse f).id = f.id ∧
      (featureToResponse f).name = f.name ∧
      (featureToResponse f).title = f.title ∧
      (featureToResponse f).description = f.description ∧
      (featureToResponse f).type = f.type ∧
      (featureToResponse f).icon = f.icon ∧
      (featureToResponse f).feature_metadata = f.feature_metadata) ∧
    (∀ (f : Feature) (a : Bool) (so : Int),
      featureToResponse { f with is_active := a, sort_order := so } =
        featureToResponse f) ∧
    fieldNames featureResponseFields =
      ["id", "name", "title", "description", "type", "icon",
       "feature_metadata"] ∧
    "is_active" ∉ fieldNames featureResponseFields ∧
    "sort_order" ∉ fieldNames featureResponseFields :=
  ⟨fun _ => ⟨rfl, rfl, rfl, rfl, rfl, rfl, rfl⟩,
   fun _ _ _ => rfl, by decide, by decide, by decide⟩

/-- C3: retrieval of a Page's ContentBlocks returns exactly the blocks
whose `page_id` names the page (as a permutation), sorted ascending by
`(position, id)`; in particular blocks stored with positions `[3, 1, 2]`
under page 1 come back in position order `[1, 2, 3]`. -/
theorem contentBlock_retrieval_sorted :
    (∀ (pid : Nat) (blocks : List ContentBlock),
      List.Sorted blockLe (retrieveBlocks pid blocks) ∧
      List.Perm (retrieveBlocks pid blocks)
        (blocks.filter (fun b => b.page_id == pid))) ∧
    (retrieveBlocks 1 exBlocks).map ContentBlock.position = [1, 2, 3] ∧
    (retrieveBlocks 1 exBlocks).map ContentBlock.id = [11, 12, 10] :=
  ⟨fun _ blocks =>
    ⟨List.sorted_insertionSort blockLe _, List.perm_insertionSort blockLe _⟩,
   by decide, by decide⟩

/-- C6: constructing a user (validated `UserCreate` construction, or the
create-User operation) succeeds only when the email matches the declared
regex `^[a-zA-Z0-9_.+-]+@[a-zA-Z0-9-]+\.[a-zA-Z0-9-.]+$`; the email
`"not-an-email"` fails validation. -/
theorem user_email_validation :
    (∀ (e un fn : String) (c : UserCreate),
      mkUserCreate e un fn = some c → emailMatches e = true) ∧
    (∀ (s : Store) (now : Nat),
      createUser s
          { email := "not-an-email", username := "someone"
            full_name := "Some One" } now =
        (s, some CoreError.validationError)) ∧
    mkUserCreate "not-an-email" "someone" "Some One" = none := by
  refine ⟨?_, ?_, ?_⟩
  · intro e un fn c h
    simp only [mkUserCreate] at h
    split at h
    · rename_i hv
      unfold userCreateValid at hv
      simp only [Bool.and_eq_true, decide_eq_true_eq] at hv
      exact hv.1.1.1
    · exact absurd h (by simp)
  · intro s now
    have hb : userCreateValid
        { email := "not-an-email", username := "someone"
          full_name := "Some One" } = false := by decide
    simp [createUser, hb]
  · decide

/-- C6 witness: a concrete successful construction, from which the theorem
yields that its email matches the regex. -/
theorem user_email_validation_witness :
    emailMatches "roy@example.com" = true :=
  user_email_validation.1 "roy@example.com" "roy" "Roy M"
    { email := "roy@example.com", username := "roy", full_name := "Roy M" }
    (by decide)

/-- C7: creating a second User with a username already stored fails with
UniqueConstraintViolation (for a create request that itself passes schema
validation), and the store is unchanged. -/
theorem username_uniqueness :
    ∀ (s : Store) (c : UserCreate) (now : Nat) (u : User),
      userCreateValid c = true → u ∈ s.users → u.username = c.username →
      createUser s c now = (s, some CoreError.uniqueConstraintViolation) := by
  intro s c now u hv hm hu
  have hdup : s.users.any
      (fun x => x.email == c.email || x.username == c.username) = true :=
    List.any_eq_true.mpr ⟨u, hm, by simp [hu]⟩
  simp [createUser, hv, hdup]

/-- C7 witness: a second "alice" is rejected with
UniqueConstraintViolation on the concrete store already holding one. -/
theorem username_uniqueness_witness :
    createUser exStore
        { email := "alice2@example.com", username := "alice"
          full_name := "Alice Two" } 5 =
      (exStore, some CoreError.uniqueConstraintViolation) :=
  username_uniqueness exStore
    { email := "alice2@example.com", username := "alice"
      full_name := "Alice Two" } 5 exUser (by decide) (by decide) (by decide)

/-- C9: every modelled operation that fails (with ValidationError,
UniqueConstraintViolation or ReferentialIntegrityError) leaves the prior
store untouched. -/
theorem failed_operations_preserve_state :
    (∀ (s : Store) (c : UserCreate) (now : Nat) (e : CoreError),
      (createUser s c now).2 = some e → (createUser s c now).1 = s) ∧
    (∀ (s : Store) (c : WebsiteCreate) (oid now : Nat) (e : CoreError),
      (createWebsite s c oid now).2 = some e →
        (createWebsite s c oid now).1 = s) ∧
    (∀ (s : Store) (c : NavigationItemCreate) (wid now : Nat) (e : CoreError),
      (createNavigationItem s c wid now).2 = some e →
        (createNavigationItem s c wid now).1 = s) := by
  refine ⟨?_, ?_, ?_⟩
  · intro s c now e h
    unfold createUser at h ⊢
    split_ifs at h ⊢ <;> simp_all
  · intro s c oid now e h
    unfold createWebsite at h ⊢
    split_ifs at h ⊢ <;> simp_all
  · intro s c wid now e h
    unfold createNavigationItem at h ⊢
    split_ifs at h ⊢ <;> simp_all

/-- C9 witness: the concrete duplicate-username failure leaves the concrete
store exactly as it was. -/
theorem failed_operations_preserve_state_witness :
    (createUser exStore
        { email := "alice2@example.com", username := "alice"
          full_name := "Alice Two" } 5).1 = exStore :=
  failed_operations_preserve_state.1 exStore
    { email := "alice2@example.com", username := "alice"
      full_name := "Alice Two" } 5 CoreError.uniqueConstraintViolation
    (by decide)

lemma buildTree_item (f : Nat) (s : List NavigationItem) (i : NavigationItem) :
    (buildTree f s i).item = i := by
  cases f <;> rfl

lemma WF_buildTree : ∀ (f : Nat) (s : List NavigationItem) (i : NavigationItem),
    WF (buildTree f s i) := by
  intro f
  induction f with
  | zero =>
    intro s i
    exact WF.mk (by simp) (by simp) (by simp)
  | succ f ih =>
    intro s i
    refine WF.mk ?_ ?_ ?_
    · rw [List.map_map]
      have hid : (NavTree.item ∘ buildTree f s) = id :=
        funext fun j => buildTree_item f s j
      rw [hid, List.map_id]
      exact List.sorted_insertionSort posLe _
    · intro c hc
      rcases List.mem_map.mp hc with ⟨j, hj, rfl⟩
      rw [buildTree_item]
      have hj' : j ∈ s.filter (fun x => x.parent_id == some i.id) := by
        unfold childrenOf at hj
        exact (List.mem_insertionSort posLe).mp hj
      have := (List.mem_filter.mp hj').2
      simpa using this
    · intro c hc
      rcases List.mem_map.mp hc with ⟨j, _, rfl⟩
      exact ih s j

/-- C1: the derived navigation forest groups each child under the item its
`parent_id` names, sibling groups (and the root list) are ordered by
`position`, roots are exactly the items with null `parent_id`; and on the
spec's worked example `{id:1,parent_id:null}, {id:2,parent_id:1},
{id:3,parent_id:2}` the forest is the single chain 1 → 2 → 3. -/
theorem navigation_forest :
    (∀ (s : List NavigationItem), ∀ t ∈ buildForest s,
      WF t ∧ (NavTree.item t).parent_id = none) ∧
    (∀ s : List NavigationItem,
      List.Sorted posLe ((buildForest s).map NavTree.item)) ∧
    buildForest exNav =
      [NavTree.node ex1 [NavTree.node ex2 [NavTree.node ex3 []]]] := by
  refine ⟨?_, ?_, ?_⟩
  · intro s t ht
    unfold buildForest at ht
    rcases List.mem_map.mp ht with ⟨r, hr, rfl⟩
    refine ⟨WF_buildTree _ s r, ?_⟩
    rw [buildTree_item]
    have hr' := (List.mem_insertionSort posLe).mp hr
    have := (List.mem_filter.mp hr').2
    simpa using this
  · intro s
    unfold buildForest
    rw [List.map_map]
    have hid : (NavTree.item ∘ buildTree s.length s) = id :=
      funext fun j => buildTree_item s.length s j
    rw [hid, List.map_id]
    exact List.sorted_insertionSort posLe _
  · rfl

/-- C1 witness: the chain tree derived from the worked example is
well-formed and its root has null `parent_id`. -/
theorem navigation_forest_witness :
    WF (NavTree.node ex1 [NavTree.node ex2 [NavTree.node ex3 []]]) ∧
    (NavTree.item
      (NavTree.node ex1 [NavTree.node ex2 [NavTree.node ex3 []]])).parent_id =
      none :=
  navigation_forest.1 exNav
    (NavTree.node ex1 [NavTree.node ex2 [NavTree.node ex3 []]])
    (by rw [navigation_forest.2.2]; exact List.mem_singleton.mpr rfl)

lemma reaches_mono {p q : Nat → Option Nat}
    (hsub : ∀ x y, p x = some y → q x = some y) :
    ∀ {a b : Nat}, Reaches p a b → Reaches q a b := by
  intro a b h
  induction h with
  | base h => exact Reaches.base (hsub _ _ h)
  | step h _ ih => exact Reaches.step (hsub _ _ h) ih

lemma reaches_trans {p : Nat → Option Nat} {a b c : Nat}
    (h1 : Reaches p a b) (h2 : Reaches p b c) : Reaches p a c := by
  induction h1 with
  | base h => exact Reaches.step h h2
  | step h _ ih => exact Reaches.step h (ih h2)

lemma acyclic_mono {p q : Nat → Option Nat}
    (hsub : ∀ x y, p x = some y → q x = some y) (hq : Acyclic q) : Acyclic p :=
  fun a h => hq a (reaches_mono hsub h)

lemma chainHits_succ_some {p : Nat → Option Nat} {d c : Nat}
    (h : p d = some c) (fuel n : Nat) :
    chainHits p (fuel + 1) d n = (c == n || chainHits p fuel c n) := by
  simp only [chainHits, h]

lemma chainHits_succ_none {p : Nat → Option Nat} {d : Nat}
    (h : p d = none) (fuel n : Nat) :
    chainHits p (fuel + 1) d n = false := by
  simp only [chainHits, h]

lemma chainHits_sound {p : Nat → Option Nat} :
    ∀ {k d n : Nat}, chainHits p k d n = true → Reaches p d n := by
  intro k
  induction k with
  | zero => intro d n h; simp [chainHits] at h
  | succ k ih =>
    intro d n h
    cases hpd : p d with
    | none => rw [chainHits_succ_none hpd] at h; cases h
    | some c =>
      rw [chainHits_succ_some hpd] at h
      simp only [Bool.or_eq_true, beq_iff_eq] at h
      rcases h with h | h
      · exact Reaches.base (by rw [hpd, h])
      · exact Reaches.step hpd (ih h)

lemma chainHits_mono_fuel {p : Nat → Option Nat} :
    ∀ {k k' d n : Nat}, k ≤ k' →
      chainHits p k d n = true → chainHits p k' d n = true := by
  intro k
  induction k with
  | zero => intro k' d n _ h; simp [chainHits] at h
  | succ k ih =>
    intro k' d n hk h
    cases k' with
    | zero => omega
    | succ k'' =>
      cases hpd : p d with
      | none => rw [chainHits_succ_none hpd] at h; cases h
      | some c =>
        rw [chainHits_succ_some hpd] at h
        rw [chainHits_succ_some hpd]
        simp only [Bool.or_eq_true, beq_iff_eq] at h ⊢
        rcases h with h | h
        · exact Or.inl h
        · exact Or.inr (ih (by omega) h)

lemma chainHits_mono_p {p q : Nat → Option Nat}
    (hsub : ∀ x y, p x = some y → q x = some y) :
    ∀ {k d n : Nat}, chainHits p k d n = true → chainHits q k d n = true := by
  intro k
  induction k with
  | zero => intro d n h; simp [chainHits] at h
  | succ k ih =>
    intro d n h
    cases hpd : p d with
    | none => rw [chainHits_succ_none hpd] at h; cases h
    | some c =>
      rw [chainHits_succ_some hpd] at h
      rw [chainHits_succ_some (hsub _ _ hpd)]
      simp only [Bool.or_eq_true, beq_iff_eq] at h ⊢
      rcases h with h | h
      · exact Or.inl h
      · exact Or.inr (ih h)

lemma reaches_avoid {p : Nat → Option Nat} {d : Nat} :
    ∀ {a b : Nat}, Reaches p a b →
      Reaches (fun x => if x = d then none else p x) a b ∨
        a = d ∨ Reaches p a d := by
  intro a b h
  induction h with
  | base h =>
    rename_i a' b'
    by_cases had : a' = d
    · exact Or.inr (Or.inl had)
    · exact Or.inl (Reaches.base (by simp [had, h]))
  | step h hr ih =>
    rename_i a' c' b'
    by_cases had : a' = d
    · exact Or.inr (Or.inl had)
    · rcases ih with ih | ih | ih
      · exact Or.inl (Reaches.step (by simp [had, h]) ih)
      · exact Or.inr (Or.inr (Reaches.base (by rw [h, ih])))
      · exact Or.inr (Or.inr (Reaches.step h ih))

lemma chainHits_complete :
    ∀ (m : Nat) (p : Nat → Option Nat) (S : Finset Nat),
      S.card = m →
      (∀ x y, p x = some y → x ∈ S) →
      Acyclic p →
      ∀ d n, Reaches p d n → chainHits p m d n = true := by
  intro m
  induction m with
  | zero =>
    intro p S hcard hsrc _ d n h
    have hd : d ∈ S := by
      cases h with
      | base h => exact hsrc _ _ h
      | step h _ => exact hsrc _ _ h
    rw [Finset.card_eq_zero.mp hcard] at hd
    cases hd
  | succ m ih =>
    intro p S hcard hsrc hacyc d n h
    have hinv : ∃ c, p d = some c ∧ (c = n ∨ Reaches p c n) := by
      cases h with
      | base h => exact ⟨_, h, Or.inl rfl⟩
      | step h hr => exact ⟨_, h, Or.inr hr⟩
    rcases hinv with ⟨c, hpd, hcn⟩
    rw [chainHits_succ_some hpd]
    simp only [Bool.or_eq_true, beq_iff_eq]
    rcases hcn with rfl | hcn
    · exact Or.inl rfl
    · right
      have hsub : ∀ x y, (fun z => if z = d then none else p z) x = some y →
          p x = some y := by
        intro x y hx
        by_cases hxd : x = d
        · simp [hxd] at hx
        · simpa [hxd] using hx
      have hacyc' : Acyclic (fun z => if z = d then none else p z) :=
        acyclic_mono hsub hacyc
      have hd_in : d ∈ S := hsrc _ _ hpd
      have hsrc' : ∀ x y, (fun z => if z = d then none else p z) x = some y →
          x ∈ S.erase d := by
        intro x y hx
        by_cases hxd : x = d
        · simp [hxd] at hx
        · exact Finset.mem_erase.mpr ⟨hxd, hsrc _ _ (by simpa [hxd] using hx)⟩
      have hcard' : (S.erase d).card = m := by
        have := Finset.card_erase_of_mem hd_in
        omega
      have hreach' : Reaches (fun z => if z = d then none else p z) c n := by
        rcases @reaches_avoid p d c n hcn with h' | h' | h'
        · exact h'
        · exact absurd (Reaches.base (by rw [hpd, h'])) (hacyc d)
        · exact absurd (Reaches.step hpd h') (hacyc d)
      exact chainHits_mono_p hsub (ih _ (S.erase d) hcard' hsrc' hacyc' c n hreach')

lemma descendantB_complete {s : List NavigationItem} {d n : Nat}
    (hacyc : Acyclic (parentMap s)) (hdesc : Descendant (parentMap s) d n) :
    descendantB s d n = true := by
  unfold descendantB
  simp only [Bool.or_eq_true, beq_iff_eq]
  rcases hdesc with rfl | hr
  · exact Or.inl rfl
  · right
    have hsrc : ∀ x y, parentMap s x = some y →
        x ∈ (s.map NavigationItem.id).toFinset := by
      intro x y hx
      unfold parentMap at hx
      cases hfind : s.find? (fun i => i.id == x) with
      | none => rw [hfind] at hx; cases hx
      | some i =>
        rw [hfind] at hx
        have hmem := List.mem_of_find?_eq_some hfind
        have hid : i.id = x := by simpa using List.find?_some hfind
        rw [List.mem_toFinset]
        exact hid ▸ List.mem_map_of_mem NavigationItem.id hmem
    have hcard : (s.map NavigationItem.id).toFinset.card ≤ s.length := by
      have h1 := (s.map NavigationItem.id).toFinset_card_le
      simpa using h1
    exact chainHits_mono_fuel hcard
      (chainHits_complete _ (parentMap s) _ rfl hsrc hacyc d n hr)

lemma descendantB_sound {s : List NavigationItem} {d n : Nat}
    (h : descendantB s d n = true) : Descendant (parentMap s) d n := by
  unfold descendantB at h
  simp only [Bool.or_eq_true, beq_iff_eq] at h
  rcases h with h | h
  · exact Or.inl h
  · exact Or.inr (chainHits_sound h)

lemma reaches_update {p : Nat → Option Nat} {n d : Nat} :
    ∀ {x y : Nat}, Reaches (fun z => if z = n then some d else p z) x y →
      Reaches p x y ∨
        ((x = n ∨ Reaches p x n) ∧
          (y = d ∨ Reaches (fun z => if z = n then some d else p z) d y)) := by
  intro x y h
  induction h with
  | base h =>
    rename_i a' b'
    by_cases han : a' = n
    · simp only [han, if_pos] at h
      have hbd : b' = d := by
        have := h
        simp at this
        exact this.symm
      exact Or.inr ⟨Or.inl han, Or.inl hbd⟩
    · simp only [if_neg han] at h
      exact Or.inl (Reaches.base h)
  | step h hr ih =>
    rename_i a' c' b'
    by_cases han : a' = n
    · simp only [han, if_pos] at h
      have hcd : c' = d := by
        have := h
        simp at this
        exact this.symm
      exact Or.inr ⟨Or.inl han, Or.inr (hcd ▸ hr)⟩
    · simp only [if_neg han] at h
      rcases ih with ih | ⟨ih1, ih2⟩
      · exact Or.inl (Reaches.step h ih)
      · refine Or.inr ⟨?_, ih2⟩
        rcases ih1 with rfl | ih1
        · exact Or.inr (Reaches.base h)
        · exact Or.inr (Reaches.step h ih1)

lemma acyclic_update {p : Nat → Option Nat} {n d : Nat}
    (hacyc : Acyclic p) (hdn : d ≠ n) (hnd : ¬ Reaches p d n) :
    Acyclic (fun z => if z = n then some d else p z) := by
  intro a ha
  rcases reaches_update ha with h | ⟨h1, h2⟩
  · exact hacyc a h
  · rcases h2 with rfl | h2
    · rcases h1 with h1 | h1
      · exact hdn h1
      · exact hnd h1
    · rcases reaches_update h2 with h3 | ⟨h3, _⟩
      · rcases h1 with rfl | h1
        · exact hnd h3
        · exact hnd (reaches_trans h3 h1)
      · rcases h3 with rfl | h3
        · exact hdn rfl
        · exact hnd h3

lemma parentMap_setParent (s : List NavigationItem) (n : Nat) (q : Option Nat)
    (x : Nat) :
    parentMap (setParent s n q) x =
      if x = n then (if s.any (fun i => i.id == n) then q else none)
      else parentMap s x := by
  induction s with
  | nil => simp [setParent, parentMap]
  | cons a s ih =>
    simp only [setParent, List.map_cons] at ih ⊢
    by_cases han : a.id = n <;> by_cases hax : a.id = x <;>
      simp_all [parentMap, List.find?_cons, List.any_cons]
    rw [if_neg (fun hh => hax hh.symm), if_neg (fun hh => hax hh.symm)]

lemma reassign_preserves_acyclic {s s' : List NavigationItem} {n : Nat}
    {q : Option Nat} (hacyc : Acyclic (parentMap s))
    (h : reassignParent s n q = some s') : Acyclic (parentMap s') := by
  cases q with
  | none =>
    simp only [reassignParent] at h
    have h2 : setParent s n none = s' := by simpa using h
    subst h2
    refine acyclic_mono ?_ hacyc
    intro x y hx
    rw [parentMap_setParent] at hx
    by_cases hxn : x = n
    · rw [if_pos hxn] at hx
      split at hx <;> cases hx
    · rw [if_neg hxn] at hx
      exact hx
  | some d =>
    simp only [reassignParent] at h
    by_cases hg : descendantB s d n = true
    · rw [if_pos hg] at h
      cases h
    · rw [if_neg hg] at h
      have h2 : setParent s n (some d) = s' := by simpa using h
      subst h2
      have hnd : ¬ Descendant (parentMap s) d n :=
        fun hD => hg (descendantB_complete hacyc hD)
      have hdn : d ≠ n := fun hh => hnd (Or.inl hh)
      have hnr : ¬ Reaches (parentMap s) d n := fun hr => hnd (Or.inr hr)
      by_cases hpres : s.any (fun i => i.id == n) = true
      · have hpm : parentMap (setParent s n (some d)) =
            fun z => if z = n then some d else parentMap s z := by
          funext z
          rw [parentMap_setParent]
          by_cases hzn : z = n <;> simp [hzn, hpres]
        rw [hpm]
        exact acyclic_update hacyc hdn hnr
      · have hnone : parentMap s n = none := by
          unfold parentMap
          have hfind : s.find? (fun i => i.id == n) = none := by
            rw [List.find?_eq_none]
            intro x hx hpx
            exact hpres (List.any_eq_true.mpr ⟨x, hx, hpx⟩)
          rw [hfind]
        have hpm : parentMap (setParent s n (some d)) = parentMap s := by
          funext z
          rw [parentMap_setParent]
          by_cases hzn : z = n
          · subst hzn
            simp [hpres, hnone]
          · simp [hzn]
        rw [hpm]
        exact hacyc

/-- C2: reassigning an item's `parent_id` to one of its descendants (in the
current acyclic forest) is rejected, and consequently every navigation
state reachable by accepted reassignments from an acyclic state is still
acyclic — no reachable state contains a `parent_id` cycle. -/
theorem navigation_cycle_prevention :
    (∀ (s : List NavigationItem) (n d : Nat),
      Acyclic (parentMap s) → Descendant (parentMap s) d n →
      reassignParent s n (some d) = none) ∧
    (∀ (s0 s : List NavigationItem),
      Acyclic (parentMap s0) → NavReachable s0 s → Acyclic (parentMap s)) := by
  constructor
  · intro s n d hacyc hdesc
    simp only [reassignParent]
    rw [if_pos (descendantB_complete hacyc hdesc)]
  · intro s0 s hacyc hr
    induction hr with
    | refl => exact hacyc
    | step _ hstep ih => exact reassign_preserves_acyclic ih hstep

lemma acyclic_of_rank {p : Nat → Option Nat} (r : Nat → Nat)
    (hdec : ∀ a b, p a = some b → r b < r a) : Acyclic p := by
  have key : ∀ {a b : Nat}, Reaches p a b → r b < r a := by
    intro a b h
    induction h with
    | base h => exact hdec _ _ h
    | step h _ ih => exact lt_trans ih (hdec _ _ h)
  exact fun a ha => lt_irrefl _ (key ha)

lemma exNav_parentMap_eval :
    ∀ a b : Nat, parentMap exNav a = some b → b < a := by
  intro a b h
  by_cases h1 : a = 1
  · subst h1
    rw [show parentMap exNav 1 = none from rfl] at h
    cases h
  by_cases h2 : a = 2
  · subst h2
    rw [show parentMap exNav 2 = some 1 from rfl] at h
    simp at h
    omega
  by_cases h3 : a = 3
  · subst h3
    rw [show parentMap exNav 3 = some 2 from rfl] at h
    simp at h
    omega
  · have hnone : parentMap exNav a = none := by
      unfold parentMap exNav
      have f1 : (ex1.id == a) = false := by
        simp only [ex1, beq_eq_false_iff_ne]
        omega
      have f2 : (ex2.id == a) = false := by
        simp only [ex2, beq_eq_false_iff_ne]
        omega
      have f3 : (ex3.id == a) = false := by
        simp only [ex3, beq_eq_false_iff_ne]
        omega
      simp [List.find?_cons, f1, f2, f3]
    rw [hnone] at h
    cases h

lemma exNav_acyclic : Acyclic (parentMap exNav) :=
  acyclic_of_rank id exNav_parentMap_eval

/-- C2 witness: on the worked chain 1 → 2 → 3, reassigning item 1's parent
to its descendant 3 is rejected, and the state reached by an accepted
reassignment (detaching item 3) is still acyclic. -/
theorem navigation_cycle_prevention_witness :
    reassignParent exNav 1 (some 3) = none ∧
    Acyclic (parentMap (setParent exNav 3 none)) :=
  ⟨navigation_cycle_prevention.1 exNav 1 3 exNav_acyclic
      (Or.inr (Reaches.step (show parentMap exNav 3 = some 2 from rfl)
        (Reaches.base (show parentMap exNav 2 = some 1 from rfl)))),
    navigation_cycle_prevention.2 exNav (setParent exNav 3 none) exNav_acyclic
      (NavReachable.step NavReachable.refl
        (show reassignParent exNav 3 none = some (setParent exNav 3 none)
          from rfl))⟩

end CMS
